import Mathlib

/-!
Verification of the key-binding configuration module of spotify-tui
(`src/user_config.rs`): the key-description grammar (`parse_key`), the
reserved-key denylist (`check_reserved_keys`), and the config loader
(`load_config`) that applies per-action overrides to the default bindings.

The embedding mirrors the Rust source.  Rust `String::len` is UTF-8 byte
length, modelled by `utf8Len`; `str::chars().nth(0)` is `get_single_char`;
a Rust panic (`panic!()` in `get_single_char`, or an out-of-bounds index
`sections[1]`) is modelled by the explicit error `ConfigError.crash`.
File-system access and YAML deserialization are external collaborators and
are modelled as parameters of `load_config_io`.
-/

namespace Spotify

/-- termion's `Key` type, restricted to the constructors the source uses. -/
inductive Key where
  | Char (c : Char)
  | Ctrl (c : Char)
  | Alt (c : Char)
  | Left
  | Right
  | Up
  | Down
  | Backspace
  | Delete
  | Esc
  | PageUp
  | PageDown
deriving DecidableEq, Repr

/-- The errors the module can produce.  `crash` models a Rust panic
(reaching `panic!()` in `get_single_char`, or indexing `sections[1]`
out of bounds); the other constructors model the `failure::format_err!`
messages, carrying the data interpolated into them. -/
inductive ConfigError where
  | tooManySections (key : String) (count : Nat)
  | unknownKey (name : String)
  | crash
  | reservedKey (k : Key)
deriving DecidableEq, Repr

/-- Rust `String::len`: the UTF-8 byte length of the string. -/
def utf8Len (s : String) : Nat :=
  s.data.foldl (fun n c => n + c.utf8Size) 0

/-- Rust `string.chars().nth(0)`: the first character, if any.  The source's
`get_single_char` panics on `None`; the panic is placed at each call site
(`ConfigError.crash`). -/
def get_single_char (s : String) : Option Char :=
  s.data.head?

/-- Rust `str::split(sep)` on a character list: split at every occurrence of
`sep`.  The result is always nonempty; splitting the empty list gives one
empty group, and a trailing separator produces a trailing empty group,
exactly as in Rust (`"".split('-')` = `[""]`, `"ctrl-".split('-')` =
`["ctrl", ""]`). -/
def splitChar (sep : Char) : List Char → List (List Char)
  | [] => [[]]
  | c :: cs =>
    if c = sep then
      [] :: splitChar sep cs
    else
      match splitChar sep cs with
      | [] => [[c]]
      | g :: gs => (c :: g) :: gs

/-- Rust `key.split('-').collect::<Vec<_>>()`. -/
def splitOnDash (s : String) : List String :=
  (splitChar '-' s.data).map fun l => ⟨l⟩

/-- Rust `str::to_lowercase`, restricted to ASCII case mapping; every
keyword in the table is ASCII, and the source's inputs of interest are
ASCII, where the two mappings agree. -/
def toLowerStr (s : String) : String :=
  ⟨s.data.map Char.toLower⟩

/-- The keyword table of `parse_key`: the lower-cased first section
dispatches into the fixed table; `"ctrl"`/`"alt"` take the first character
of the second section (`get_single_char(sections[1])`), where a missing
second section (`sections[1]` out of bounds) or an empty one (the
`panic!()` inside `get_single_char`) is the modelled crash. -/
def parseKeyword (s0 : String) (rest : List String) : Except ConfigError Key :=
  if toLowerStr s0 = "ctrl" then
    match rest with
    | [] => .error .crash
    | s1 :: _ =>
      match get_single_char s1 with
      | some c => .ok (.Ctrl c)
      | none => .error .crash
  else if toLowerStr s0 = "alt" then
    match rest with
    | [] => .error .crash
    | s1 :: _ =>
      match get_single_char s1 with
      | some c => .ok (.Alt c)
      | none => .error .crash
  else if toLowerStr s0 = "left" then .ok .Left
  else if toLowerStr s0 = "right" then .ok .Right
  else if toLowerStr s0 = "up" then .ok .Up
  else if toLowerStr s0 = "down" then .ok .Down
  else if toLowerStr s0 = "backspace" then .ok .Backspace
  else if toLowerStr s0 = "delete" then .ok .Backspace
  else if toLowerStr s0 = "del" then .ok .Delete
  else if toLowerStr s0 = "esc" then .ok .Esc
  else if toLowerStr s0 = "escape" then .ok .Esc
  else if toLowerStr s0 = "pageup" then .ok .PageUp
  else if toLowerStr s0 = "pagedown" then .ok .PageDown
  else if toLowerStr s0 = "space" then .ok (.Char ' ')
  else .error (.unknownKey s0)

/-- The multi-byte arm of `parse_key`: reject more than two `'-'`-separated
sections, then dispatch on the first section. -/
def parseSections (key : String) (sections : List String) : Except ConfigError Key :=
  if sections.length > 2 then
    .error (.tooManySections key sections.length)
  else
    match sections with
    | [] => .error .crash
    | s0 :: rest => parseKeyword s0 rest

/-- `parse_key` from `user_config.rs`.  Single-byte inputs become plain
character keys; otherwise the input is split on `'-'`, rejected if it has
more than two sections, and the lower-cased first section is matched
against the keyword table. -/
def parse_key (key : String) : Except ConfigError Key :=
  if utf8Len key = 1 then
    match get_single_char key with
    | some c => .ok (.Char c)
    | none => .error .crash
  else
    parseSections key (splitOnDash key)

/-- The reserved-key denylist of `check_reserved_keys`, in source order. -/
def reserved : List Key :=
  [.Char 'h', .Char 'j', .Char 'k', .Char 'l',
   .Up, .Down, .Left, .Right, .Backspace, .Char '\n']

/-- The `for item in reserved.iter()` loop of `check_reserved_keys`:
return the error at the first matching item, `Ok(())` otherwise. -/
def checkReservedLoop : List Key → Key → Except ConfigError Unit
  | [], _ => .ok ()
  | item :: rest, key =>
    if key = item then .error (.reservedKey key) else checkReservedLoop rest key

/-- `check_reserved_keys` from `user_config.rs`. -/
def check_reserved_keys (key : Key) : Except ConfigError Unit :=
  checkReservedLoop reserved key

/-- The deserialized override record `UserConfigString`: one optional
textual key description per action, in the field order of the source. -/
structure UserConfigString where
  back : Option String := none
  jump_to_album : Option String := none
  jump_to_artist_album : Option String := none
  manage_devices : Option String := none
  decrease_volume : Option String := none
  increase_volume : Option String := none
  toggle_playback : Option String := none
  seek_backwards : Option String := none
  seek_forwards : Option String := none
  next_track : Option String := none
  previous_track : Option String := none
  help : Option String := none
  shuffle : Option String := none
  repeat_track : Option String := none
  search_track : Option String := none
deriving DecidableEq, Repr

/-- The binding set `UserConfig`: one typed key per action.
(The source fields `repeat` and `search` are renamed `repeat_track` and
`search_track` because `repeat` is a Lean keyword; same order.) -/
structure UserConfig where
  back : Key
  jump_to_album : Key
  jump_to_artist_album : Key
  manage_devices : Key
  decrease_volume : Key
  increase_volume : Key
  toggle_playback : Key
  seek_backwards : Key
  seek_forwards : Key
  next_track : Key
  previous_track : Key
  help : Key
  shuffle : Key
  repeat_track : Key
  search_track : Key
deriving DecidableEq, Repr

/-- `UserConfig::new()`: the built-in default bindings. -/
def UserConfig.new : UserConfig where
  back := .Char 'q'
  jump_to_album := .Char 'a'
  jump_to_artist_album := .Char 'A'
  manage_devices := .Char 'd'
  decrease_volume := .Char '-'
  increase_volume := .Char '+'
  toggle_playback := .Char ' '
  seek_backwards := .Char '<'
  seek_forwards := .Char '>'
  next_track := .Char 'n'
  previous_track := .Char 'p'
  help := .Char '?'
  shuffle := .Char 's'
  repeat_track := .Char 'r'
  search_track := .Char '/'

/-- One expansion of the `to_keys!` macro in `load_config`, on the running
state paired with the first error met so far.  A prior error short-circuits
(the `?` operator returned from `load_config`).  Note the source order: the
parsed key is assigned into the field (`self.$name = parse_key(...)?`)
BEFORE `check_reserved_keys` runs, so a reserved-key failure leaves the
field already overwritten. -/
def applyOverride (o : Option String) (set : Key → UserConfig → UserConfig) :
    UserConfig × Option ConfigError → UserConfig × Option ConfigError
  | (st, some e) => (st, some e)
  | (st, none) =>
    match o with
    | none => (st, none)
    | some s =>
      match parse_key s with
      | .error e => (st, some e)
      | .ok k =>
        match check_reserved_keys k with
        | .error e => (set k st, some e)
        | .ok _ => (set k st, none)

/-- The override-application phase of `load_config`: the fifteen
`to_keys!` expansions in source order, threaded over the mutable `self`.
Returns the final state and the first error, if any (in the source the
error is returned by `?` and `self` keeps the mutations made so far). -/
def load_config (st : UserConfig) (yml : UserConfigString) :
    UserConfig × Option ConfigError :=
  (st, none)
  |> applyOverride yml.back (fun k c => { c with back := k })
  |> applyOverride yml.jump_to_album (fun k c => { c with jump_to_album := k })
  |> applyOverride yml.jump_to_artist_album (fun k c => { c with jump_to_artist_album := k })
  |> applyOverride yml.manage_devices (fun k c => { c with manage_devices := k })
  |> applyOverride yml.decrease_volume (fun k c => { c with decrease_volume := k })
  |> applyOverride yml.increase_volume (fun k c => { c with increase_volume := k })
  |> applyOverride yml.toggle_playback (fun k c => { c with toggle_playback := k })
  |> applyOverride yml.seek_backwards (fun k c => { c with seek_backwards := k })
  |> applyOverride yml.seek_forwards (fun k c => { c with seek_forwards := k })
  |> applyOverride yml.next_track (fun k c => { c with next_track := k })
  |> applyOverride yml.previous_track (fun k c => { c with previous_track := k })
  |> applyOverride yml.help (fun k c => { c with help := k })
  |> applyOverride yml.shuffle (fun k c => { c with shuffle := k })
  |> applyOverride yml.repeat_track (fun k c => { c with repeat_track := k })
  |> applyOverride yml.search_track (fun k c => { c with search_track := k })

/-- Rust `str::trim().is_empty()`: every character is whitespace. -/
def trimIsEmpty (s : String) : Bool :=
  s.data.all Char.isWhitespace

/-- The file-handling shell of `load_config`.  `file` is the config file's
content when it exists (`none` = absent file); `deser` stands for the
external YAML deserializer.  An absent file, or a file whose content is
empty or whitespace-only, leaves the bindings untouched and succeeds; the
short-circuit happens before deserialization. -/
def load_config_io (st : UserConfig) (file : Option String)
    (deser : String → Except ConfigError UserConfigString) :
    UserConfig × Option ConfigError :=
  match file with
  | none => (st, none)
  | some content =>
    if trimIsEmpty content then
      (st, none)
    else
      match deser content with
      | .error e => (st, some e)
      | .ok yml => load_config st yml

/-- Prefixes of the `load_config` override chain: `chainN st yml` is the
state/error pair after the first `N` of the fifteen `to_keys!` steps.
`chain15` is the whole of `load_config`'s override phase. -/
def chain0 (st : UserConfig) (_yml : UserConfigString) :
    UserConfig × Option ConfigError := (st, none)

def chain1 (st : UserConfig) (yml : UserConfigString) :
    UserConfig × Option ConfigError :=
  applyOverride yml.back (fun k c => { c with back := k }) (chain0 st yml)

def chain2 (st : UserConfig) (yml : UserConfigString) :
    UserConfig × Option ConfigError :=
  applyOverride yml.jump_to_album (fun k c => { c with jump_to_album := k }) (chain1 st yml)

def chain3 (st : UserConfig) (yml : UserConfigString) :
    UserConfig × Option ConfigError :=
  applyOverride yml.jump_to_artist_album (fun k c => { c with jump_to_artist_album := k }) (chain2 st yml)

def chain4 (st : UserConfig) (yml : UserConfigString) :
    UserConfig × Option ConfigError :=
  applyOverride yml.manage_devices (fun k c => { c with manage_devices := k }) (chain3 st yml)

def chain5 (st : UserConfig) (yml : UserConfigString) :
    UserConfig × Option ConfigError :=
  applyOverride yml.decrease_volume (fun k c => { c with decrease_volume := k }) (chain4 st yml)

def chain6 (st : UserConfig) (yml : UserConfigString) :
    UserConfig × Option ConfigError :=
  applyOverride yml.increase_volume (fun k c => { c with increase_volume := k }) (chain5 st yml)

def chain7 (st : UserConfig) (yml : UserConfigString) :
    UserConfig × Option ConfigError :=
  applyOverride yml.toggle_playback (fun k c => { c with toggle_playback := k }) (chain6 st yml)

def chain8 (st : UserConfig) (yml : UserConfigString) :
    UserConfig × Option ConfigError :=
  applyOverride yml.seek_backwards (fun k c => { c with seek_backwards := k }) (chain7 st yml)

def chain9 (st : UserConfig) (yml : UserConfigString) :
    UserConfig × Option ConfigError :=
  applyOverride yml.seek_forwards (fun k c => { c with seek_forwards := k }) (chain8 st yml)

def chain10 (st : UserConfig) (yml : UserConfigString) :
    UserConfig × Option ConfigError :=
  applyOverride yml.next_track (fun k c => { c with next_track := k }) (chain9 st yml)

def chain11 (st : UserConfig) (yml : UserConfigString) :
    UserConfig × Option ConfigError :=
  applyOverride yml.previous_track (fun k c => { c with previous_track := k }) (chain10 st yml)

def chain12 (st : UserConfig) (yml : UserConfigString) :
    UserConfig × Option ConfigError :=
  applyOverride yml.help (fun k c => { c with help := k }) (chain11 st yml)

def chain13 (st : UserConfig) (yml : UserConfigString) :
    UserConfig × Option ConfigError :=
  applyOverride yml.shuffle (fun k c => { c with shuffle := k }) (chain12 st yml)

def chain14 (st : UserConfig) (yml : UserConfigString) :
    UserConfig × Option ConfigError :=
  applyOverride yml.repeat_track (fun k c => { c with repeat_track := k }) (chain13 st yml)

def chain15 (st : UserConfig) (yml : UserConfigString) :
    UserConfig × Option ConfigError :=
  applyOverride yml.search_track (fun k c => { c with search_track := k }) (chain14 st yml)

lemma chain15_eq_load (st : UserConfig) (yml : UserConfigString) :
    chain15 st yml = load_config st yml := rfl

/-- An already-failed load is left untouched by later `to_keys!` steps. -/
lemma applyOverride_err (o : Option String) (set : Key → UserConfig → UserConfig)
    (st : UserConfig) (e : ConfigError) :
    applyOverride o set (st, some e) = (st, some e) := rfl

/-- A step that ends without error started without error. -/
lemma applyOverride_inv (o : Option String) (set : Key → UserConfig → UserConfig)
    (p : UserConfig × Option ConfigError) (res : UserConfig)
    (h : applyOverride o set p = (res, none)) :
    p.2 = none ∧ applyOverride o set (p.1, none) = (res, none) := by
  rcases p with ⟨st, e⟩
  cases e with
  | none => exact ⟨rfl, h⟩
  | some e => simp [applyOverride] at h

/-- Characterization of a successful `to_keys!` step: either no override
was present and the state is unchanged, or the override parsed to a key
that passed the reserved check and was assigned. -/
lemma applyOverride_succ (o : Option String) (set : Key → UserConfig → UserConfig)
    (st st' : UserConfig)
    (h : applyOverride o set (st, none) = (st', none)) :
    (o = none ∧ st' = st) ∨
    ∃ s k, o = some s ∧ parse_key s = .ok k ∧ check_reserved_keys k = .ok () ∧
      st' = set k st := by
  cases o with
  | none => exact Or.inl ⟨rfl, (congrArg Prod.fst h).symm⟩
  | some s =>
    cases hp : parse_key s with
    | error e => simp [applyOverride, hp] at h
    | ok k =>
      cases hc : check_reserved_keys k with
      | error e => simp [applyOverride, hp, hc] at h
      | ok u =>
        cases u
        refine Or.inr ⟨s, k, rfl, hp, hc, ?_⟩
        simp only [applyOverride, hp, hc, Prod.mk.injEq, and_true] at h
        exact h.symm

/-- Per-action override outcome of a successful load: a present override
parses to the final binding; an absent one keeps the incoming value. -/
def fieldRel (d : Key) (o : Option String) (r : Key) : Prop :=
  match o with
  | none => r = d
  | some s => ∃ k, parse_key s = .ok k ∧ r = k

/-- The keyword table of §4.1, first sections in source match order. -/
def keywordTable : List String :=
  ["ctrl", "alt", "left", "right", "up", "down", "backspace", "delete",
   "del", "esc", "escape", "pageup", "pagedown", "space"]

/-- The reserved set of §4.2, spelled out structurally (tag plus payload). -/
abbrev reservedSpec (k : Key) : Prop :=
  k = .Char 'h' ∨ k = .Char 'j' ∨ k = .Char 'k' ∨ k = .Char 'l' ∨
  k = .Up ∨ k = .Down ∨ k = .Left ∨ k = .Right ∨
  k = .Backspace ∨ k = .Char '\n'

lemma checkReservedLoop_not_mem (l : List Key) (k : Key) (h : k ∉ l) :
    checkReservedLoop l k = .ok () := by
  induction l with
  | nil => rfl
  | cons a l ih =>
    simp only [List.mem_cons, not_or] at h
    simp only [checkReservedLoop, if_neg h.1]
    exact ih h.2

lemma checkReservedLoop_mem (l : List Key) (k : Key) (h : k ∈ l) :
    checkReservedLoop l k = .error (.reservedKey k) := by
  induction l with
  | nil => cases h
  | cons a l ih =>
    by_cases hk : k = a
    · simp only [checkReservedLoop, if_pos hk]
    · have hl : k ∈ l := by
        rcases List.mem_cons.mp h with h1 | h1
        · exact absurd h1 hk
        · exact h1
      simp only [checkReservedLoop, if_neg hk]
      exact ih hl

lemma mem_reserved_iff (k : Key) : k ∈ reserved ↔ reservedSpec k := by
  simp [reserved, reservedSpec]

/-- The assertions of the source's `mod tests` (`test_parse_key` and
`test_reserved_key`), checked against the embedding. -/
theorem source_unit_tests :
    parse_key "j" = .ok (.Char 'j') ∧
    parse_key "J" = .ok (.Char 'J') ∧
    parse_key "ctrl-j" = .ok (.Ctrl 'j') ∧
    parse_key "ctrl-J" = .ok (.Ctrl 'J') ∧
    parse_key "-" = .ok (.Char '-') ∧
    parse_key "esc" = .ok .Esc ∧
    parse_key "del" = .ok .Delete ∧
    check_reserved_keys (.Char '\n') = .error (.reservedKey (.Char '\n')) :=
  ⟨rfl, rfl, rfl, rfl, rfl, rfl, rfl, rfl⟩
example : load_config UserConfig.new { help := some "ctrl-h" } =
    ({ UserConfig.new with help := .Ctrl 'h' }, none) := by rfl
example : load_config UserConfig.new
      { back := some "x", next_track := some "j", help := some "ctrl-h" } =
    ({ UserConfig.new with back := .Char 'x', next_track := .Char 'j' },
     some (.reservedKey (.Char 'j'))) := by rfl

/-- C2 (code bug): on input `"ctrl-"` — the `"ctrl"` keyword with an empty
second section — `parse_key` reaches the `panic!()` inside
`get_single_char` (modelled by `ConfigError.crash`) instead of failing
with a descriptive empty-modifier-target error; likewise for `"alt-"`.
The split indeed produces an empty second section, and `get_single_char`
of the empty string is the panic case, so the crash branch IS reachable
at the public interface. -/
theorem claim2_empty_modifier_crash :
    parse_key "ctrl-" = .error .crash ∧
    parse_key "alt-" = .error .crash ∧
    splitOnDash "ctrl-" = ["ctrl", ""] ∧
    get_single_char "" = none :=
  ⟨rfl, rfl, rfl, rfl⟩

/-- C3 counterexample: `"é"` is a single-character string (length 1 in
characters), yet `parse_key` fails with an unknown-key error instead of
returning the plain character `'é'`: the source's length check is on the
UTF-8 byte length (2 for `"é"`), so the multi-byte arm is taken. -/
theorem claim3_counterexample :
    String.length "é" = 1 ∧
    utf8Len "é" = 2 ∧
    parse_key "é" = .error (.unknownKey "é") :=
  ⟨rfl, rfl, rfl⟩

/-- C3 (amended): for every single-character string whose character is a
single UTF-8 byte (any ASCII character, including punctuation and
characters that prefix a keyword), `parse_key` succeeds with exactly that
plain character, case preserved; in particular `"-"` parses to plain
`'-'` because the length check short-circuits before splitting. -/
theorem claim3_single_ascii (c : Char) (h : c.utf8Size = 1) :
    parse_key (String.singleton c) = .ok (.Char c) ∧
    parse_key "-" = .ok (.Char '-') := by
  constructor
  · have h1 : utf8Len (String.singleton c) = 1 := by
      simp [utf8Len, String.singleton, h]
    simp only [parse_key, if_pos h1]
    simp [get_single_char, String.singleton, String.push]
  · rfl

/-- Witness for C3: instantiation at `'-'`. -/
theorem claim3_witness :
    Char.utf8Size '-' = 1 ∧ parse_key (String.singleton '-') = .ok (.Char '-') :=
  ⟨by decide, (claim3_single_ascii '-' (by decide)).1⟩

/-- C4: `check_reserved_keys` fails, with an error naming the key, exactly
on the keys structurally equal to one of plain `'h'`, `'j'`, `'k'`, `'l'`,
the four directional keys, backspace, or the newline character key; every
other key — in particular `Ctrl('j')` — succeeds. -/
theorem claim4_reserved_guard (k : Key) :
    (reservedSpec k → check_reserved_keys k = .error (.reservedKey k)) ∧
    (¬ reservedSpec k → check_reserved_keys k = .ok ()) ∧
    check_reserved_keys (.Ctrl 'j') = .ok () := by
  refine ⟨fun h => ?_, fun h => ?_, rfl⟩
  · exact checkReservedLoop_mem _ _ ((mem_reserved_iff k).mpr h)
  · exact checkReservedLoop_not_mem _ _ (fun hm => h ((mem_reserved_iff k).mp hm))

/-- Witness for C4: the newline key is rejected, plain `'x'` is accepted. -/
theorem claim4_witness :
    check_reserved_keys (.Char '\n') = .error (.reservedKey (.Char '\n')) ∧
    check_reserved_keys (.Char 'x') = .ok () :=
  ⟨(claim4_reserved_guard (.Char '\n')).1 (by decide),
   (claim4_reserved_guard (.Char 'x')).2.1 (by decide)⟩

/-- C5: for multi-byte inputs with at most one `'-'`, the lower-cased
first section dispatches through the keyword table: `"ctrl"`/`"alt"`
yield the modifier key on the first character of the second section with
case preserved; the directional names yield the directional keys;
`"backspace"`/`"delete"` yield backspace; `"del"` yields delete;
`"esc"`/`"escape"` yield escape; `"pageup"`/`"pagedown"` yield the page
keys; `"space"` yields the plain space character. -/
theorem claim5_keyword_table :
    (∀ (key s0 s1 : String) (c : Char) (cs : List Char),
      ¬ utf8Len key = 1 → splitOnDash key = [s0, s1] → toLowerStr s0 = "ctrl" →
      s1.data = c :: cs → parse_key key = .ok (.Ctrl c)) ∧
    (∀ (key s0 s1 : String) (c : Char) (cs : List Char),
      ¬ utf8Len key = 1 → splitOnDash key = [s0, s1] → toLowerStr s0 = "alt" →
      s1.data = c :: cs → parse_key key = .ok (.Alt c)) ∧
    (∀ (key s0 : String) (rest : List String),
      ¬ utf8Len key = 1 → splitOnDash key = s0 :: rest → rest.length ≤ 1 →
      toLowerStr s0 = "left" → parse_key key = .ok .Left) ∧
    (∀ (key s0 : String) (rest : List String),
      ¬ utf8Len key = 1 → splitOnDash key = s0 :: rest → rest.length ≤ 1 →
      toLowerStr s0 = "right" → parse_key key = .ok .Right) ∧
    (∀ (key s0 : String) (rest : List String),
      ¬ utf8Len key = 1 → splitOnDash key = s0 :: rest → rest.length ≤ 1 →
      toLowerStr s0 = "up" → parse_key key = .ok .Up) ∧
    (∀ (key s0 : String) (rest : List String),
      ¬ utf8Len key = 1 → splitOnDash key = s0 :: rest → rest.length ≤ 1 →
      toLowerStr s0 = "down" → parse_key key = .ok .Down) ∧
    (∀ (key s0 : String) (rest : List String),
      ¬ utf8Len key = 1 → splitOnDash key = s0 :: rest → rest.length ≤ 1 →
      toLowerStr s0 = "backspace" → parse_key key = .ok .Backspace) ∧
    (∀ (key s0 : String) (rest : List String),
      ¬ utf8Len key = 1 → splitOnDash key = s0 :: rest → rest.length ≤ 1 →
      toLowerStr s0 = "delete" → parse_key key = .ok .Backspace) ∧
    (∀ (key s0 : String) (rest : List String),
      ¬ utf8Len key = 1 → splitOnDash key = s0 :: rest → rest.length ≤ 1 →
      toLowerStr s0 = "del" → parse_key key = .ok .Delete) ∧
    (∀ (key s0 : String) (rest : List String),
      ¬ utf8Len key = 1 → splitOnDash key = s0 :: rest → rest.length ≤ 1 →
      toLowerStr s0 = "esc" → parse_key key = .ok .Esc) ∧
    (∀ (key s0 : String) (rest : List String),
      ¬ utf8Len key = 1 → splitOnDash key = s0 :: rest → rest.length ≤ 1 →
      toLowerStr s0 = "escape" → parse_key key = .ok .Esc) ∧
    (∀ (key s0 : String) (rest : List String),
      ¬ utf8Len key = 1 → splitOnDash key = s0 :: rest → rest.length ≤ 1 →
      toLowerStr s0 = "pageup" → parse_key key = .ok .PageUp) ∧
    (∀ (key s0 : String) (rest : List String),
      ¬ utf8Len key = 1 → splitOnDash key = s0 :: rest → rest.length ≤ 1 →
      toLowerStr s0 = "pagedown" → parse_key key = .ok .PageDown) ∧
    (∀ (key s0 : String) (rest : List String),
      ¬ utf8Len key = 1 → splitOnDash key = s0 :: rest → rest.length ≤ 1 →
      toLowerStr s0 = "space" → parse_key key = .ok (.Char ' ')) ∧
    parse_key "ctrl-j" = .ok (.Ctrl 'j') ∧
    parse_key "ctrl-J" = .ok (.Ctrl 'J') ∧
    parse_key "esc" = .ok .Esc ∧
    parse_key "del" = .ok .Delete := by
  refine ⟨?_, ?_, ?_, ?_, ?_, ?_, ?_, ?_, ?_, ?_, ?_, ?_, ?_, ?_, ?_, ?_, ?_, ?_⟩
  · intro key s0 s1 c cs h1 hsplit hlow hdata
    have hgt : ¬ (([s0, s1] : List String).length > 2) := by simp
    simp [parse_key, if_neg h1, hsplit, parseSections, if_neg hgt, parseKeyword, hlow,
      get_single_char, hdata]
  · intro key s0 s1 c cs h1 hsplit hlow hdata
    have hgt : ¬ (([s0, s1] : List String).length > 2) := by simp
    simp [parse_key, if_neg h1, hsplit, parseSections, if_neg hgt, parseKeyword, hlow,
      get_single_char, hdata]
  · intro key s0 rest h1 hsplit hlen hlow
    have hgt : ¬ ((s0 :: rest).length > 2) := by
      simp only [List.length_cons]
      omega
    simp [parse_key, if_neg h1, hsplit, parseSections, if_neg hgt, parseKeyword, hlow, hlen]
  · intro key s0 rest h1 hsplit hlen hlow
    have hgt : ¬ ((s0 :: rest).length > 2) := by
      simp only [List.length_cons]
      omega
    simp [parse_key, if_neg h1, hsplit, parseSections, if_neg hgt, parseKeyword, hlow, hlen]
  · intro key s0 rest h1 hsplit hlen hlow
    have hgt : ¬ ((s0 :: rest).length > 2) := by
      simp only [List.length_cons]
      omega
    simp [parse_key, if_neg h1, hsplit, parseSections, if_neg hgt, parseKeyword, hlow, hlen]
  · intro key s0 rest h1 hsplit hlen hlow
    have hgt : ¬ ((s0 :: rest).length > 2) := by
      simp only [List.length_cons]
      omega
    simp [parse_key, if_neg h1, hsplit, parseSections, if_neg hgt, parseKeyword, hlow, hlen]
  · intro key s0 rest h1 hsplit hlen hlow
    have hgt : ¬ ((s0 :: rest).length > 2) := by
      simp only [List.length_cons]
      omega
    simp [parse_key, if_neg h1, hsplit, parseSections, if_neg hgt, parseKeyword, hlow, hlen]
  · intro key s0 rest h1 hsplit hlen hlow
    have hgt : ¬ ((s0 :: rest).length > 2) := by
      simp only [List.length_cons]
      omega
    simp [parse_key, if_neg h1, hsplit, parseSections, if_neg hgt, parseKeyword, hlow, hlen]
  · intro key s0 rest h1 hsplit hlen hlow
    have hgt : ¬ ((s0 :: rest).length > 2) := by
      simp only [List.length_cons]
      omega
    simp [parse_key, if_neg h1, hsplit, parseSections, if_neg hgt, parseKeyword, hlow, hlen]
  · intro key s0 rest h1 hsplit hlen hlow
    have hgt : ¬ ((s0 :: rest).length > 2) := by
      simp only [List.length_cons]
      omega
    simp [parse_key, if_neg h1, hsplit, parseSections, if_neg hgt, parseKeyword, hlow, hlen]
  · intro key s0 rest h1 hsplit hlen hlow
    have hgt : ¬ ((s0 :: rest).length > 2) := by
      simp only [List.length_cons]
      omega
    simp [parse_key, if_neg h1, hsplit, parseSections, if_neg hgt, parseKeyword, hlow, hlen]
  · intro key s0 rest h1 hsplit hlen hlow
    have hgt : ¬ ((s0 :: rest).length > 2) := by
      simp only [List.length_cons]
      omega
    simp [parse_key, if_neg h1, hsplit, parseSections, if_neg hgt, parseKeyword, hlow, hlen]
  · intro key s0 rest h1 hsplit hlen hlow
    have hgt : ¬ ((s0 :: rest).length > 2) := by
      simp only [List.length_cons]
      omega
    simp [parse_key, if_neg h1, hsplit, parseSections, if_neg hgt, parseKeyword, hlow, hlen]
  · intro key s0 rest h1 hsplit hlen hlow
    have hgt : ¬ ((s0 :: rest).length > 2) := by
      simp only [List.length_cons]
      omega
    simp [parse_key, if_neg h1, hsplit, parseSections, if_neg hgt, parseKeyword, hlow, hlen]
  · rfl
  · rfl
  · rfl
  · rfl

/-- Witness for C5: instantiations at `"ctrl-x"` (modifier arm) and
`"LEFT"` (keyword arm). -/
theorem claim5_witness :
    parse_key "ctrl-x" = .ok (.Ctrl 'x') ∧ parse_key "LEFT" = .ok .Left :=
  ⟨claim5_keyword_table.1 "ctrl-x" "ctrl" "x" 'x' [] (by decide) (by decide)
      (by decide) (by decide),
   (claim5_keyword_table.2.2.1 "LEFT" "LEFT" [] (by decide) (by decide)
      (by decide) (by decide))⟩

/-- C6: every input whose byte length is not 1 and that splits on `'-'`
into more than two sections fails with a too-many-sections error
reporting the number of sections found; `"a-b-c"` reports 3. -/
theorem claim6_too_many_sections :
    (∀ key : String, ¬ utf8Len key = 1 → (splitOnDash key).length > 2 →
      parse_key key = .error (.tooManySections key (splitOnDash key).length)) ∧
    parse_key "a-b-c" = .error (.tooManySections "a-b-c" 3) := by
  constructor
  · intro key h1 h2
    simp only [parse_key, if_neg h1, parseSections]
    rw [if_pos h2]
  · rfl

/-- Witness for C6: instantiation at `"a-b-c"` (3 sections). -/
theorem claim6_witness :
    ¬ utf8Len "a-b-c" = 1 ∧ (splitOnDash "a-b-c").length > 2 ∧
    parse_key "a-b-c" = .error (.tooManySections "a-b-c" (splitOnDash "a-b-c").length) :=
  ⟨by decide, by decide, claim6_too_many_sections.1 "a-b-c" (by decide) (by decide)⟩

/-- C7: every input whose byte length is not 1, with at most two
`'-'`-separated sections, whose lower-cased first section matches no
keyword of the table, fails with an unknown-key error naming that first
section; `"bogus"` fails naming `"bogus"`. -/
theorem claim7_unknown_key :
    (∀ (key s0 : String) (rest : List String),
      ¬ utf8Len key = 1 → splitOnDash key = s0 :: rest → rest.length ≤ 1 →
      ¬ toLowerStr s0 ∈ keywordTable →
      parse_key key = .error (.unknownKey s0)) ∧
    parse_key "bogus" = .error (.unknownKey "bogus") := by
  constructor
  · intro key s0 rest h1 hsplit hlen hkw
    simp only [keywordTable, List.mem_cons, List.not_mem_nil, or_false, not_or] at hkw
    obtain ⟨n1, n2, n3, n4, n5, n6, n7, n8, n9, n10, n11, n12, n13, n14⟩ := hkw
    have hgt : ¬ ((s0 :: rest).length > 2) := by
      simp only [List.length_cons]
      omega
    simp only [parse_key, if_neg h1, hsplit, parseSections, if_neg hgt, parseKeyword,
      if_neg n1, if_neg n2, if_neg n3, if_neg n4, if_neg n5, if_neg n6, if_neg n7,
      if_neg n8, if_neg n9, if_neg n10, if_neg n11, if_neg n12, if_neg n13, if_neg n14]
  · rfl

/-- Witness for C7: instantiation at `"bogus"`. -/
theorem claim7_witness :
    ¬ utf8Len "bogus" = 1 ∧ splitOnDash "bogus" = ["bogus"] ∧
    ¬ toLowerStr "bogus" ∈ keywordTable ∧
    parse_key "bogus" = .error (.unknownKey "bogus") :=
  ⟨by decide, by decide, by decide,
   claim7_unknown_key.1 "bogus" "bogus" [] (by decide) (by decide) (by decide) (by decide)⟩

/-- C10: the empty-string input does not crash: its byte length is 0 (so
the length-1 branch is not taken), splitting on `'-'` yields a single
empty section, no keyword matches, and the result is an unknown-key
error naming the empty string. -/
theorem claim10_empty_input :
    utf8Len "" = 0 ∧
    splitOnDash "" = [""] ∧
    parse_key "" = .error (.unknownKey "") :=
  ⟨rfl, rfl, rfl⟩

/-- C8: starting from the defaults, the load succeeds and leaves every
binding at its default when the config file is absent, and likewise when
the file exists but its content is empty or whitespace-only — the
short-circuit fires before the deserializer (`deser`) is consulted, for
any deserializer. -/
theorem claim8_absent_or_empty_file
    (deser : String → Except ConfigError UserConfigString) :
    load_config_io UserConfig.new none deser = (UserConfig.new, none) ∧
    ∀ content : String, trimIsEmpty content = true →
      load_config_io UserConfig.new (some content) deser = (UserConfig.new, none) := by
  refine ⟨rfl, fun content h => ?_⟩
  simp [load_config_io, h]

/-- Witness for C8: a deserializer that rejects everything, and a
whitespace-only content string. -/
theorem claim8_witness :
    load_config_io UserConfig.new none (fun _ => .error .crash) =
      (UserConfig.new, none) ∧
    trimIsEmpty " \n " = true ∧
    load_config_io UserConfig.new (some " \n ") (fun _ => .error .crash) =
      (UserConfig.new, none) :=
  ⟨(claim8_absent_or_empty_file (fun _ => .error .crash)).1,
   by decide,
   (claim8_absent_or_empty_file (fun _ => .error .crash)).2 " \n " (by decide)⟩

/-- C1 counterexample: loading a config that sets `next_track` to `"j"`
DOES change the `next_track` binding: the source assigns the parsed key
into the field before `check_reserved_keys` runs, so the load aborts with
the reserved-key error but leaves `next_track` at plain `'j'` instead of
its default `'n'`. -/
theorem claim1_counterexample :
    load_config UserConfig.new { next_track := some "j" } =
      ({ UserConfig.new with next_track := .Char 'j' },
       some (.reservedKey (.Char 'j'))) ∧
    UserConfig.new.next_track = .Char 'n' :=
  ⟨rfl, rfl⟩

/-- C1 (amended): when a parse or validation failure occurs for an
overridden action, the load aborts with that error and the actions
processed earlier keep their committed overrides; a parse failure leaves
the failing action's binding unassigned, but a reserved-key validation
failure assigns the parsed key to the failing action's binding before
aborting.  In particular, setting `next_track` to `"j"` aborts with the
reserved-key error and leaves `next_track` bound to plain `'j'`; with an
earlier override `back = "x"` and a later override `help = "ctrl-h"`, the
earlier one is committed and the later one is never applied. -/
theorem claim1_partial_commit :
    (∀ (o : Option String) (set : Key → UserConfig → UserConfig)
        (st : UserConfig) (s : String) (e : ConfigError),
      o = some s → parse_key s = .error e →
      applyOverride o set (st, none) = (st, some e)) ∧
    (∀ (o : Option String) (set : Key → UserConfig → UserConfig)
        (st : UserConfig) (s : String) (k : Key) (e : ConfigError),
      o = some s → parse_key s = .ok k → check_reserved_keys k = .error e →
      applyOverride o set (st, none) = (set k st, some e)) ∧
    (∀ (o : Option String) (set : Key → UserConfig → UserConfig)
        (st : UserConfig) (e : ConfigError),
      applyOverride o set (st, some e) = (st, some e)) ∧
    load_config UserConfig.new { next_track := some "j" } =
      ({ UserConfig.new with next_track := .Char 'j' },
       some (.reservedKey (.Char 'j'))) ∧
    load_config UserConfig.new
        { back := some "x", next_track := some "j", help := some "ctrl-h" } =
      ({ UserConfig.new with back := .Char 'x', next_track := .Char 'j' },
       some (.reservedKey (.Char 'j'))) := by
  refine ⟨?_, ?_, ?_, rfl, rfl⟩
  · intro o set st s e ho hp
    subst ho
    simp [applyOverride, hp]
  · intro o set st s k e ho hp hc
    subst ho
    simp [applyOverride, hp, hc]
  · intro o set st e
    rfl

/-- Witness for C1: the three universal parts instantiated on the `back`
field with a parse failure (`"bogus"`), a reserved-key failure (`"j"`),
and a pre-existing error. -/
theorem claim1_witness :
    applyOverride (some "bogus") (fun k c => { c with back := k })
        (UserConfig.new, none) =
      (UserConfig.new, some (.unknownKey "bogus")) ∧
    applyOverride (some "j") (fun k c => { c with back := k })
        (UserConfig.new, none) =
      ({ UserConfig.new with back := .Char 'j' },
       some (.reservedKey (.Char 'j'))) ∧
    applyOverride (some "ctrl-h") (fun k c => { c with back := k })
        (UserConfig.new, some .crash) =
      (UserConfig.new, some .crash) :=
  ⟨claim1_partial_commit.1 (some "bogus") _ UserConfig.new "bogus"
      (.unknownKey "bogus") rfl rfl,
   claim1_partial_commit.2.1 (some "j") _ UserConfig.new "j" (.Char 'j')
      (.reservedKey (.Char 'j')) rfl rfl rfl,
   claim1_partial_commit.2.2.1 (some "ctrl-h") _ UserConfig.new .crash⟩

/-- C9: loading from the defaults with the single override
`help = "ctrl-h"` succeeds and yields the defaults except
`help = Ctrl('h')`; and in general every load that ends without error
gives each overridden action the parse of its override string and keeps
every non-overridden action at its incoming value. -/
theorem claim9_success_overrides :
    load_config UserConfig.new { help := some "ctrl-h" } =
      ({ UserConfig.new with help := .Ctrl 'h' }, none) ∧
    ∀ (st : UserConfig) (yml : UserConfigString) (res : UserConfig),
      load_config st yml = (res, none) →
      fieldRel st.back yml.back res.back ∧
      fieldRel st.jump_to_album yml.jump_to_album res.jump_to_album ∧
      fieldRel st.jump_to_artist_album yml.jump_to_artist_album res.jump_to_artist_album ∧
      fieldRel st.manage_devices yml.manage_devices res.manage_devices ∧
      fieldRel st.decrease_volume yml.decrease_volume res.decrease_volume ∧
      fieldRel st.increase_volume yml.increase_volume res.increase_volume ∧
      fieldRel st.toggle_playback yml.toggle_playback res.toggle_playback ∧
      fieldRel st.seek_backwards yml.seek_backwards res.seek_backwards ∧
      fieldRel st.seek_forwards yml.seek_forwards res.seek_forwards ∧
      fieldRel st.next_track yml.next_track res.next_track ∧
      fieldRel st.previous_track yml.previous_track res.previous_track ∧
      fieldRel st.help yml.help res.help ∧
      fieldRel st.shuffle yml.shuffle res.shuffle ∧
      fieldRel st.repeat_track yml.repeat_track res.repeat_track ∧
      fieldRel st.search_track yml.search_track res.search_track := by
  constructor
  · rfl
  · intro st yml res h
    have e15 : chain15 st yml = (res, none) := (chain15_eq_load st yml).trans h
    obtain ⟨hn14, h15⟩ := applyOverride_inv _ _ _ _ e15
    obtain ⟨x14, hx14⟩ : ∃ x, (chain14 st yml).1 = x := ⟨_, rfl⟩
    rw [hx14] at h15
    have D15 := applyOverride_succ _ _ _ _ h15
    have e14 : chain14 st yml = (x14, none) := by
      rw [← hx14, ← hn14]
    obtain ⟨hn13, h14⟩ := applyOverride_inv _ _ _ _ e14
    obtain ⟨x13, hx13⟩ : ∃ x, (chain13 st yml).1 = x := ⟨_, rfl⟩
    rw [hx13] at h14
    have D14 := applyOverride_succ _ _ _ _ h14
    have e13 : chain13 st yml = (x13, none) := by
      rw [← hx13, ← hn13]
    obtain ⟨hn12, h13⟩ := applyOverride_inv _ _ _ _ e13
    obtain ⟨x12, hx12⟩ : ∃ x, (chain12 st yml).1 = x := ⟨_, rfl⟩
    rw [hx12] at h13
    have D13 := applyOverride_succ _ _ _ _ h13
    have e12 : chain12 st yml = (x12, none) := by
      rw [← hx12, ← hn12]
    obtain ⟨hn11, h12⟩ := applyOverride_inv _ _ _ _ e12
    obtain ⟨x11, hx11⟩ : ∃ x, (chain11 st yml).1 = x := ⟨_, rfl⟩
    rw [hx11] at h12
    have D12 := applyOverride_succ _ _ _ _ h12
    have e11 : chain11 st yml = (x11, none) := by
      rw [← hx11, ← hn11]
    obtain ⟨hn10, h11⟩ := applyOverride_inv _ _ _ _ e11
    obtain ⟨x10, hx10⟩ : ∃ x, (chain10 st yml).1 = x := ⟨_, rfl⟩
    rw [hx10] at h11
    have D11 := applyOverride_succ _ _ _ _ h11
    have e10 : chain10 st yml = (x10, none) := by
      rw [← hx10, ← hn10]
    obtain ⟨hn9, h10⟩ := applyOverride_inv _ _ _ _ e10
    obtain ⟨x9, hx9⟩ : ∃ x, (chain9 st yml).1 = x := ⟨_, rfl⟩
    rw [hx9] at h10
    have D10 := applyOverride_succ _ _ _ _ h10
    have e9 : chain9 st yml = (x9, none) := by
      rw [← hx9, ← hn9]
    obtain ⟨hn8, h9⟩ := applyOverride_inv _ _ _ _ e9
    obtain ⟨x8, hx8⟩ : ∃ x, (chain8 st yml).1 = x := ⟨_, rfl⟩
    rw [hx8] at h9
    have D9 := applyOverride_succ _ _ _ _ h9
    have e8 : chain8 st yml = (x8, none) := by
      rw [← hx8, ← hn8]
    obtain ⟨hn7, h8⟩ := applyOverride_inv _ _ _ _ e8
    obtain ⟨x7, hx7⟩ : ∃ x, (chain7 st yml).1 = x := ⟨_, rfl⟩
    rw [hx7] at h8
    have D8 := applyOverride_succ _ _ _ _ h8
    have e7 : chain7 st yml = (x7, none) := by
      rw [← hx7, ← hn7]
    obtain ⟨hn6, h7⟩ := applyOverride_inv _ _ _ _ e7
    obtain ⟨x6, hx6⟩ : ∃ x, (chain6 st yml).1 = x := ⟨_, rfl⟩
    rw [hx6] at h7
    have D7 := applyOverride_succ _ _ _ _ h7
    have e6 : chain6 st yml = (x6, none) := by
      rw [← hx6, ← hn6]
    obtain ⟨hn5, h6⟩ := applyOverride_inv _ _ _ _ e6
    obtain ⟨x5, hx5⟩ : ∃ x, (chain5 st yml).1 = x := ⟨_, rfl⟩
    rw [hx5] at h6
    have D6 := applyOverride_succ _ _ _ _ h6
    have e5 : chain5 st yml = (x5, none) := by
      rw [← hx5, ← hn5]
    obtain ⟨hn4, h5⟩ := applyOverride_inv _ _ _ _ e5
    obtain ⟨x4, hx4⟩ : ∃ x, (chain4 st yml).1 = x := ⟨_, rfl⟩
    rw [hx4] at h5
    have D5 := applyOverride_succ _ _ _ _ h5
    have e4 : chain4 st yml = (x4, none) := by
      rw [← hx4, ← hn4]
    obtain ⟨hn3, h4⟩ := applyOverride_inv _ _ _ _ e4
    obtain ⟨x3, hx3⟩ : ∃ x, (chain3 st yml).1 = x := ⟨_, rfl⟩
    rw [hx3] at h4
    have D4 := applyOverride_succ _ _ _ _ h4
    have e3 : chain3 st yml = (x3, none) := by
      rw [← hx3, ← hn3]
    obtain ⟨hn2, h3⟩ := applyOverride_inv _ _ _ _ e3
    obtain ⟨x2, hx2⟩ : ∃ x, (chain2 st yml).1 = x := ⟨_, rfl⟩
    rw [hx2] at h3
    have D3 := applyOverride_succ _ _ _ _ h3
    have e2 : chain2 st yml = (x2, none) := by
      rw [← hx2, ← hn2]
    obtain ⟨hn1, h2⟩ := applyOverride_inv _ _ _ _ e2
    obtain ⟨x1, hx1⟩ : ∃ x, (chain1 st yml).1 = x := ⟨_, rfl⟩
    rw [hx1] at h2
    have D2 := applyOverride_succ _ _ _ _ h2
    have e1 : chain1 st yml = (x1, none) := by
      rw [← hx1, ← hn1]
    obtain ⟨hn0, h1⟩ := applyOverride_inv _ _ _ _ e1
    have hx0 : (chain0 st yml).1 = st := rfl
    rw [hx0] at h1
    have D1 := applyOverride_succ _ _ _ _ h1
    have F1 :
        fieldRel st.back yml.back x1.back ∧
        x1.jump_to_album = st.jump_to_album ∧
        x1.jump_to_artist_album = st.jump_to_artist_album ∧
        x1.manage_devices = st.manage_devices ∧
        x1.decrease_volume = st.decrease_volume ∧
        x1.increase_volume = st.increase_volume ∧
        x1.toggle_playback = st.toggle_playback ∧
        x1.seek_backwards = st.seek_backwards ∧
        x1.seek_forwards = st.seek_forwards ∧
        x1.next_track = st.next_track ∧
        x1.previous_track = st.previous_track ∧
        x1.help = st.help ∧
        x1.shuffle = st.shuffle ∧
        x1.repeat_track = st.repeat_track ∧
        x1.search_track = st.search_track := by
      rcases D1 with ⟨ho, heq⟩ | ⟨s, k, ho, hpk, hck, heq⟩
      · rw [heq, ho]
        exact ⟨rfl, rfl, rfl, rfl, rfl, rfl, rfl, rfl, rfl, rfl, rfl, rfl, rfl, rfl, rfl⟩
      · rw [heq, ho]
        exact ⟨⟨k, hpk, rfl⟩, rfl, rfl, rfl, rfl, rfl, rfl, rfl, rfl, rfl, rfl, rfl, rfl, rfl, rfl⟩
    obtain ⟨g1_1, g1_2, g1_3, g1_4, g1_5, g1_6, g1_7, g1_8, g1_9, g1_10, g1_11, g1_12, g1_13, g1_14, g1_15⟩ := F1
    have F2 :
        x2.back = x1.back ∧
        fieldRel x1.jump_to_album yml.jump_to_album x2.jump_to_album ∧
        x2.jump_to_artist_album = x1.jump_to_artist_album ∧
        x2.manage_devices = x1.manage_devices ∧
        x2.decrease_volume = x1.decrease_volume ∧
        x2.increase_volume = x1.increase_volume ∧
        x2.toggle_playback = x1.toggle_playback ∧
        x2.seek_backwards = x1.seek_backwards ∧
        x2.seek_forwards = x1.seek_forwards ∧
        x2.next_track = x1.next_track ∧
        x2.previous_track = x1.previous_track ∧
        x2.help = x1.help ∧
        x2.shuffle = x1.shuffle ∧
        x2.repeat_track = x1.repeat_track ∧
        x2.search_track = x1.search_track := by
      rcases D2 with ⟨ho, heq⟩ | ⟨s, k, ho, hpk, hck, heq⟩
      · rw [heq, ho]
        exact ⟨rfl, rfl, rfl, rfl, rfl, rfl, rfl, rfl, rfl, rfl, rfl, rfl, rfl, rfl, rfl⟩
      · rw [heq, ho]
        exact ⟨rfl, ⟨k, hpk, rfl⟩, rfl, rfl, rfl, rfl, rfl, rfl, rfl, rfl, rfl, rfl, rfl, rfl, rfl⟩
    obtain ⟨g2_1, g2_2, g2_3, g2_4, g2_5, g2_6, g2_7, g2_8, g2_9, g2_10, g2_11, g2_12, g2_13, g2_14, g2_15⟩ := F2
    have F3 :
        x3.back = x2.back ∧
        x3.jump_to_album = x2.jump_to_album ∧
        fieldRel x2.jump_to_artist_album yml.jump_to_artist_album x3.jump_to_artist_album ∧
        x3.manage_devices = x2.manage_devices ∧
        x3.decrease_volume = x2.decrease_volume ∧
        x3.increase_volume = x2.increase_volume ∧
        x3.toggle_playback = x2.toggle_playback ∧
        x3.seek_backwards = x2.seek_backwards ∧
        x3.seek_forwards = x2.seek_forwards ∧
        x3.next_track = x2.next_track ∧
        x3.previous_track = x2.previous_track ∧
        x3.help = x2.help ∧
        x3.shuffle = x2.shuffle ∧
        x3.repeat_track = x2.repeat_track ∧
        x3.search_track = x2.search_track := by
      rcases D3 with ⟨ho, heq⟩ | ⟨s, k, ho, hpk, hck, heq⟩
      · rw [heq, ho]
        exact ⟨rfl, rfl, rfl, rfl, rfl, rfl, rfl, rfl, rfl, rfl, rfl, rfl, rfl, rfl, rfl⟩
      · rw [heq, ho]
        exact ⟨rfl, rfl, ⟨k, hpk, rfl⟩, rfl, rfl, rfl, rfl, rfl, rfl, rfl, rfl, rfl, rfl, rfl, rfl⟩
    obtain ⟨g3_1, g3_2, g3_3, g3_4, g3_5, g3_6, g3_7, g3_8, g3_9, g3_10, g3_11, g3_12, g3_13, g3_14, g3_15⟩ := F3
    have F4 :
        x4.back = x3.back ∧
        x4.jump_to_album = x3.jump_to_album ∧
        x4.jump_to_artist_album = x3.jump_to_artist_album ∧
        fieldRel x3.manage_devices yml.manage_devices x4.manage_devices ∧
        x4.decrease_volume = x3.decrease_volume ∧
        x4.increase_volume = x3.increase_volume ∧
        x4.toggle_playback = x3.toggle_playback ∧
        x4.seek_backwards = x3.seek_backwards ∧
        x4.seek_forwards = x3.seek_forwards ∧
        x4.next_track = x3.next_track ∧
        x4.previous_track = x3.previous_track ∧
        x4.help = x3.help ∧
        x4.shuffle = x3.shuffle ∧
        x4.repeat_track = x3.repeat_track ∧
        x4.search_track = x3.search_track := by
      rcases D4 with ⟨ho, heq⟩ | ⟨s, k, ho, hpk, hck, heq⟩
      · rw [heq, ho]
        exact ⟨rfl, rfl, rfl, rfl, rfl, rfl, rfl, rfl, rfl, rfl, rfl, rfl, rfl, rfl, rfl⟩
      · rw [heq, ho]
        exact ⟨rfl, rfl, rfl, ⟨k, hpk, rfl⟩, rfl, rfl, rfl, rfl, rfl, rfl, rfl, rfl, rfl, rfl, rfl⟩
    obtain ⟨g4_1, g4_2, g4_3, g4_4, g4_5, g4_6, g4_7, g4_8, g4_9, g4_10, g4_11, g4_12, g4_13, g4_14, g4_15⟩ := F4
    have F5 :
        x5.back = x4.back ∧
        x5.jump_to_album = x4.jump_to_album ∧
        x5.jump_to_artist_album = x4.jump_to_artist_album ∧
        x5.manage_devices = x4.manage_devices ∧
        fieldRel x4.decrease_volume yml.decrease_volume x5.decrease_volume ∧
        x5.increase_volume = x4.increase_volume ∧
        x5.toggle_playback = x4.toggle_playback ∧
        x5.seek_backwards = x4.seek_backwards ∧
        x5.seek_forwards = x4.seek_forwards ∧
        x5.next_track = x4.next_track ∧
        x5.previous_track = x4.previous_track ∧
        x5.help = x4.help ∧
        x5.shuffle = x4.shuffle ∧
        x5.repeat_track = x4.repeat_track ∧
        x5.search_track = x4.search_track := by
      rcases D5 with ⟨ho, heq⟩ | ⟨s, k, ho, hpk, hck, heq⟩
      · rw [heq, ho]
        exact ⟨rfl, rfl, rfl, rfl, rfl, rfl, rfl, rfl, rfl, rfl, rfl, rfl, rfl, rfl, rfl⟩
      · rw [heq, ho]
        exact ⟨rfl, rfl, rfl, rfl, ⟨k, hpk, rfl⟩, rfl, rfl, rfl, rfl, rfl, rfl, rfl, rfl, rfl, rfl⟩
    obtain ⟨g5_1, g5_2, g5_3, g5_4, g5_5, g5_6, g5_7, g5_8, g5_9, g5_10, g5_11, g5_12, g5_13, g5_14, g5_15⟩ := F5
    have F6 :
        x6.back = x5.back ∧
        x6.jump_to_album = x5.jump_to_album ∧
        x6.jump_to_artist_album = x5.jump_to_artist_album ∧
        x6.manage_devices = x5.manage_devices ∧
        x6.decrease_volume = x5.decrease_volume ∧
        fieldRel x5.increase_volume yml.increase_volume x6.increase_volume ∧
        x6.toggle_playback = x5.toggle_playback ∧
        x6.seek_backwards = x5.seek_backwards ∧
        x6.seek_forwards = x5.seek_forwards ∧
        x6.next_track = x5.next_track ∧
        x6.previous_track = x5.previous_track ∧
        x6.help = x5.help ∧
        x6.shuffle = x5.shuffle ∧
        x6.repeat_track = x5.repeat_track ∧
        x6.search_track = x5.search_track := by
      rcases D6 with ⟨ho, heq⟩ | ⟨s, k, ho, hpk, hck, heq⟩
      · rw [heq, ho]
        exact ⟨rfl, rfl, rfl, rfl, rfl, rfl, rfl, rfl, rfl, rfl, rfl, rfl, rfl, rfl, rfl⟩
      · rw [heq, ho]
        exact ⟨rfl, rfl, rfl, rfl, rfl, ⟨k, hpk, rfl⟩, rfl, rfl, rfl, rfl, rfl, rfl, rfl, rfl, rfl⟩
    obtain ⟨g6_1, g6_2, g6_3, g6_4, g6_5, g6_6, g6_7, g6_8, g6_9, g6_10, g6_11, g6_12, g6_13, g6_14, g6_15⟩ := F6
    have F7 :
        x7.back = x6.back ∧
        x7.jump_to_album = x6.jump_to_album ∧
        x7.jump_to_artist_album = x6.jump_to_artist_album ∧
        x7.manage_devices = x6.manage_devices ∧
        x7.decrease_volume = x6.decrease_volume ∧
        x7.increase_volume = x6.increase_volume ∧
        fieldRel x6.toggle_playback yml.toggle_playback x7.toggle_playback ∧
        x7.seek_backwards = x6.seek_backwards ∧
        x7.seek_forwards = x6.seek_forwards ∧
        x7.next_track = x6.next_track ∧
        x7.previous_track = x6.previous_track ∧
        x7.help = x6.help ∧
        x7.shuffle = x6.shuffle ∧
        x7.repeat_track = x6.repeat_track ∧
        x7.search_track = x6.search_track := by
      rcases D7 with ⟨ho, heq⟩ | ⟨s, k, ho, hpk, hck, heq⟩
      · rw [heq, ho]
        exact ⟨rfl, rfl, rfl, rfl, rfl, rfl, rfl, rfl, rfl, rfl, rfl, rfl, rfl, rfl, rfl⟩
      · rw [heq, ho]
        exact ⟨rfl, rfl, rfl, rfl, rfl, rfl, ⟨k, hpk, rfl⟩, rfl, rfl, rfl, rfl, rfl, rfl, rfl, rfl⟩
    obtain ⟨g7_1, g7_2, g7_3, g7_4, g7_5, g7_6, g7_7, g7_8, g7_9, g7_10, g7_11, g7_12, g7_13, g7_14, g7_15⟩ := F7
    have F8 :
        x8.back = x7.back ∧
        x8.jump_to_album = x7.jump_to_album ∧
        x8.jump_to_artist_album = x7.jump_to_artist_album ∧
        x8.manage_devices = x7.manage_devices ∧
        x8.decrease_volume = x7.decrease_volume ∧
        x8.increase_volume = x7.increase_volume ∧
        x8.toggle_playback = x7.toggle_playback ∧
        fieldRel x7.seek_backwards yml.seek_backwards x8.seek_backwards ∧
        x8.seek_forwards = x7.seek_forwards ∧
        x8.next_track = x7.next_track ∧
        x8.previous_track = x7.previous_track ∧
        x8.help = x7.help ∧
        x8.shuffle = x7.shuffle ∧
        x8.repeat_track = x7.repeat_track ∧
        x8.search_track = x7.search_track := by
      rcases D8 with ⟨ho, heq⟩ | ⟨s, k, ho, hpk, hck, heq⟩
      · rw [heq, ho]
        exact ⟨rfl, rfl, rfl, rfl, rfl, rfl, rfl, rfl, rfl, rfl, rfl, rfl, rfl, rfl, rfl⟩
      · rw [heq, ho]
        exact ⟨rfl, rfl, rfl, rfl, rfl, rfl, rfl, ⟨k, hpk, rfl⟩, rfl, rfl, rfl, rfl, rfl, rfl, rfl⟩
    obtain ⟨g8_1, g8_2, g8_3, g8_4, g8_5, g8_6, g8_7, g8_8, g8_9, g8_10, g8_11, g8_12, g8_13, g8_14, g8_15⟩ := F8
    have F9 :
        x9.back = x8.back ∧
        x9.jump_to_album = x8.jump_to_album ∧
        x9.jump_to_artist_album = x8.jump_to_artist_album ∧
        x9.manage_devices = x8.manage_devices ∧
        x9.decrease_volume = x8.decrease_volume ∧
        x9.increase_volume = x8.increase_volume ∧
        x9.toggle_playback = x8.toggle_playback ∧
        x9.seek_backwards = x8.seek_backwards ∧
        fieldRel x8.seek_forwards yml.seek_forwards x9.seek_forwards ∧
        x9.next_track = x8.next_track ∧
        x9.previous_track = x8.previous_track ∧
        x9.help = x8.help ∧
        x9.shuffle = x8.shuffle ∧
        x9.repeat_track = x8.repeat_track ∧
        x9.search_track = x8.search_track := by
      rcases D9 with ⟨ho, heq⟩ | ⟨s, k, ho, hpk, hck, heq⟩
      · rw [heq, ho]
        exact ⟨rfl, rfl, rfl, rfl, rfl, rfl, rfl, rfl, rfl, rfl, rfl, rfl, rfl, rfl, rfl⟩
      · rw [heq, ho]
        exact ⟨rfl, rfl, rfl, rfl, rfl, rfl, rfl, rfl, ⟨k, hpk, rfl⟩, rfl, rfl, rfl, rfl, rfl, rfl⟩
    obtain ⟨g9_1, g9_2, g9_3, g9_4, g9_5, g9_6, g9_7, g9_8, g9_9, g9_10, g9_11, g9_12, g9_13, g9_14, g9_15⟩ := F9
    have F10 :
        x10.back = x9.back ∧
        x10.jump_to_album = x9.jump_to_album ∧
        x10.jump_to_artist_album = x9.jump_to_artist_album ∧
        x10.manage_devices = x9.manage_devices ∧
        x10.decrease_volume = x9.decrease_volume ∧
        x10.increase_volume = x9.increase_volume ∧
        x10.toggle_playback = x9.toggle_playback ∧
        x10.seek_backwards = x9.seek_backwards ∧
        x10.seek_forwards = x9.seek_forwards ∧
        fieldRel x9.next_track yml.next_track x10.next_track ∧
        x10.previous_track = x9.previous_track ∧
        x10.help = x9.help ∧
        x10.shuffle = x9.shuffle ∧
        x10.repeat_track = x9.repeat_track ∧
        x10.search_track = x9.search_track := by
      rcases D10 with ⟨ho, heq⟩ | ⟨s, k, ho, hpk, hck, heq⟩
      · rw [heq, ho]
        exact ⟨rfl, rfl, rfl, rfl, rfl, rfl, rfl, rfl, rfl, rfl, rfl, rfl, rfl, rfl, rfl⟩
      · rw [heq, ho]
        exact ⟨rfl, rfl, rfl, rfl, rfl, rfl, rfl, rfl, rfl, ⟨k, hpk, rfl⟩, rfl, rfl, rfl, rfl, rfl⟩
    obtain ⟨g10_1, g10_2, g10_3, g10_4, g10_5, g10_6, g10_7, g10_8, g10_9, g10_10, g10_11, g10_12, g10_13, g10_14, g10_15⟩ := F10
    have F11 :
        x11.back = x10.back ∧
        x11.jump_to_album = x10.jump_to_album ∧
        x11.jump_to_artist_album = x10.jump_to_artist_album ∧
        x11.manage_devices = x10.manage_devices ∧
        x11.decrease_volume = x10.decrease_volume ∧
        x11.increase_volume = x10.increase_volume ∧
        x11.toggle_playback = x10.toggle_playback ∧
        x11.seek_backwards = x10.seek_backwards ∧
        x11.seek_forwards = x10.seek_forwards ∧
        x11.next_track = x10.next_track ∧
        fieldRel x10.previous_track yml.previous_track x11.previous_track ∧
        x11.help = x10.help ∧
        x11.shuffle = x10.shuffle ∧
        x11.repeat_track = x10.repeat_track ∧
        x11.search_track = x10.search_track := by
      rcases D11 with ⟨ho, heq⟩ | ⟨s, k, ho, hpk, hck, heq⟩
      · rw [heq, ho]
        exact ⟨rfl, rfl, rfl, rfl, rfl, rfl, rfl, rfl, rfl, rfl, rfl, rfl, rfl, rfl, rfl⟩
      · rw [heq, ho]
        exact ⟨rfl, rfl, rfl, rfl, rfl, rfl, rfl, rfl, rfl, rfl, ⟨k, hpk, rfl⟩, rfl, rfl, rfl, rfl⟩
    obtain ⟨g11_1, g11_2, g11_3, g11_4, g11_5, g11_6, g11_7, g11_8, g11_9, g11_10, g11_11, g11_12, g11_13, g11_14, g11_15⟩ := F11
    have F12 :
        x12.back = x11.back ∧
        x12.jump_to_album = x11.jump_to_album ∧
        x12.jump_to_artist_album = x11.jump_to_artist_album ∧
        x12.manage_devices = x11.manage_devices ∧
        x12.decrease_volume = x11.decrease_volume ∧
        x12.increase_volume = x11.increase_volume ∧
        x12.toggle_playback = x11.toggle_playback ∧
        x12.seek_backwards = x11.seek_backwards ∧
        x12.seek_forwards = x11.seek_forwards ∧
        x12.next_track = x11.next_track ∧
        x12.previous_track = x11.previous_track ∧
        fieldRel x11.help yml.help x12.help ∧
        x12.shuffle = x11.shuffle ∧
        x12.repeat_track = x11.repeat_track ∧
        x12.search_track = x11.search_track := by
      rcases D12 with ⟨ho, heq⟩ | ⟨s, k, ho, hpk, hck, heq⟩
      · rw [heq, ho]
        exact ⟨rfl, rfl, rfl, rfl, rfl, rfl, rfl, rfl, rfl, rfl, rfl, rfl, rfl, rfl, rfl⟩
      · rw [heq, ho]
        exact ⟨rfl, rfl, rfl, rfl, rfl, rfl, rfl, rfl, rfl, rfl, rfl, ⟨k, hpk, rfl⟩, rfl, rfl, rfl⟩
    obtain ⟨g12_1, g12_2, g12_3, g12_4, g12_5, g12_6, g12_7, g12_8, g12_9, g12_10, g12_11, g12_12, g12_13, g12_14, g12_15⟩ := F12
    have F13 :
        x13.back = x12.back ∧
        x13.jump_to_album = x12.jump_to_album ∧
        x13.jump_to_artist_album = x12.jump_to_artist_album ∧
        x13.manage_devices = x12.manage_devices ∧
        x13.decrease_volume = x12.decrease_volume ∧
        x13.increase_volume = x12.increase_volume ∧
        x13.toggle_playback = x12.toggle_playback ∧
        x13.seek_backwards = x12.seek_backwards ∧
        x13.seek_forwards = x12.seek_forwards ∧
        x13.next_track = x12.next_track ∧
        x13.previous_track = x12.previous_track ∧
        x13.help = x12.help ∧
        fieldRel x12.shuffle yml.shuffle x13.shuffle ∧
        x13.repeat_track = x12.repeat_track ∧
        x13.search_track = x12.search_track := by
      rcases D13 with ⟨ho, heq⟩ | ⟨s, k, ho, hpk, hck, heq⟩
      · rw [heq, ho]
        exact ⟨rfl, rfl, rfl, rfl, rfl, rfl, rfl, rfl, rfl, rfl, rfl, rfl, rfl, rfl, rfl⟩
      · rw [heq, ho]
        exact ⟨rfl, rfl, rfl, rfl, rfl, rfl, rfl, rfl, rfl, rfl, rfl, rfl, ⟨k, hpk, rfl⟩, rfl, rfl⟩
    obtain ⟨g13_1, g13_2, g13_3, g13_4, g13_5, g13_6, g13_7, g13_8, g13_9, g13_10, g13_11, g13_12, g13_13, g13_14, g13_15⟩ := F13
    have F14 :
        x14.back = x13.back ∧
        x14.jump_to_album = x13.jump_to_album ∧
        x14.jump_to_artist_album = x13.jump_to_artist_album ∧
        x14.manage_devices = x13.manage_devices ∧
        x14.decrease_volume = x13.decrease_volume ∧
        x14.increase_volume = x13.increase_volume ∧
        x14.toggle_playback = x13.toggle_playback ∧
        x14.seek_backwards = x13.seek_backwards ∧
        x14.seek_forwards = x13.seek_forwards ∧
        x14.next_track = x13.next_track ∧
        x14.previous_track = x13.previous_track ∧
        x14.help = x13.help ∧
        x14.shuffle = x13.shuffle ∧
        fieldRel x13.repeat_track yml.repeat_track x14.repeat_track ∧
        x14.search_track = x13.search_track := by
      rcases D14 with ⟨ho, heq⟩ | ⟨s, k, ho, hpk, hck, heq⟩
      · rw [heq, ho]
        exact ⟨rfl, rfl, rfl, rfl, rfl, rfl, rfl, rfl, rfl, rfl, rfl, rfl, rfl, rfl, rfl⟩
      · rw [heq, ho]
        exact ⟨rfl, rfl, rfl, rfl, rfl, rfl, rfl, rfl, rfl, rfl, rfl, rfl, rfl, ⟨k, hpk, rfl⟩, rfl⟩
    obtain ⟨g14_1, g14_2, g14_3, g14_4, g14_5, g14_6, g14_7, g14_8, g14_9, g14_10, g14_11, g14_12, g14_13, g14_14, g14_15⟩ := F14
    have F15 :
        res.back = x14.back ∧
        res.jump_to_album = x14.jump_to_album ∧
        res.jump_to_artist_album = x14.jump_to_artist_album ∧
        res.manage_devices = x14.manage_devices ∧
        res.decrease_volume = x14.decrease_volume ∧
        res.increase_volume = x14.increase_volume ∧
        res.toggle_playback = x14.toggle_playback ∧
        res.seek_backwards = x14.seek_backwards ∧
        res.seek_forwards = x14.seek_forwards ∧
        res.next_track = x14.next_track ∧
        res.previous_track = x14.previous_track ∧
        res.help = x14.help ∧
        res.shuffle = x14.shuffle ∧
        res.repeat_track = x14.repeat_track ∧
        fieldRel x14.search_track yml.search_track res.search_track := by
      rcases D15 with ⟨ho, heq⟩ | ⟨s, k, ho, hpk, hck, heq⟩
      · rw [heq, ho]
        exact ⟨rfl, rfl, rfl, rfl, rfl, rfl, rfl, rfl, rfl, rfl, rfl, rfl, rfl, rfl, rfl⟩
      · rw [heq, ho]
        exact ⟨rfl, rfl, rfl, rfl, rfl, rfl, rfl, rfl, rfl, rfl, rfl, rfl, rfl, rfl, ⟨k, hpk, rfl⟩⟩
    obtain ⟨g15_1, g15_2, g15_3, g15_4, g15_5, g15_6, g15_7, g15_8, g15_9, g15_10, g15_11, g15_12, g15_13, g15_14, g15_15⟩ := F15
    refine ⟨?_, ?_, ?_, ?_, ?_, ?_, ?_, ?_, ?_, ?_, ?_, ?_, ?_, ?_, ?_⟩
    · have top : res.back = x1.back :=
        g15_1.trans (g14_1.trans (g13_1.trans (g12_1.trans (g11_1.trans (g10_1.trans (g9_1.trans (g8_1.trans (g7_1.trans (g6_1.trans (g5_1.trans (g4_1.trans (g3_1.trans (g2_1)))))))))))))
      rw [top]
      exact g1_1
    · have top : res.jump_to_album = x2.jump_to_album :=
        g15_2.trans (g14_2.trans (g13_2.trans (g12_2.trans (g11_2.trans (g10_2.trans (g9_2.trans (g8_2.trans (g7_2.trans (g6_2.trans (g5_2.trans (g4_2.trans (g3_2))))))))))))
      have bot : x1.jump_to_album = st.jump_to_album :=
        g1_2
      rw [top, ← bot]
      exact g2_2
    · have top : res.jump_to_artist_album = x3.jump_to_artist_album :=
        g15_3.trans (g14_3.trans (g13_3.trans (g12_3.trans (g11_3.trans (g10_3.trans (g9_3.trans (g8_3.trans (g7_3.trans (g6_3.trans (g5_3.trans (g4_3)))))))))))
      have bot : x2.jump_to_artist_album = st.jump_to_artist_album :=
        g2_3.trans (g1_3)
      rw [top, ← bot]
      exact g3_3
    · have top : res.manage_devices = x4.manage_devices :=
        g15_4.trans (g14_4.trans (g13_4.trans (g12_4.trans (g11_4.trans (g10_4.trans (g9_4.trans (g8_4.trans (g7_4.trans (g6_4.trans (g5_4))))))))))
      have bot : x3.manage_devices = st.manage_devices :=
        g3_4.trans (g2_4.trans (g1_4))
      rw [top, ← bot]
      exact g4_4
    · have top : res.decrease_volume = x5.decrease_volume :=
        g15_5.trans (g14_5.trans (g13_5.trans (g12_5.trans (g11_5.trans (g10_5.trans (g9_5.trans (g8_5.trans (g7_5.trans (g6_5)))))))))
      have bot : x4.decrease_volume = st.decrease_volume :=
        g4_5.trans (g3_5.trans (g2_5.trans (g1_5)))
      rw [top, ← bot]
      exact g5_5
    · have top : res.increase_volume = x6.increase_volume :=
        g15_6.trans (g14_6.trans (g13_6.trans (g12_6.trans (g11_6.trans (g10_6.trans (g9_6.trans (g8_6.trans (g7_6))))))))
      have bot : x5.increase_volume = st.increase_volume :=
        g5_6.trans (g4_6.trans (g3_6.trans (g2_6.trans (g1_6))))
      rw [top, ← bot]
      exact g6_6
    · have top : res.toggle_playback = x7.toggle_playback :=
        g15_7.trans (g14_7.trans (g13_7.trans (g12_7.trans (g11_7.trans (g10_7.trans (g9_7.trans (g8_7)))))))
      have bot : x6.toggle_playback = st.toggle_playback :=
        g6_7.trans (g5_7.trans (g4_7.trans (g3_7.trans (g2_7.trans (g1_7)))))
      rw [top, ← bot]
      exact g7_7
    · have top : res.seek_backwards = x8.seek_backwards :=
        g15_8.trans (g14_8.trans (g13_8.trans (g12_8.trans (g11_8.trans (g10_8.trans (g9_8))))))
      have bot : x7.seek_backwards = st.seek_backwards :=
        g7_8.trans (g6_8.trans (g5_8.trans (g4_8.trans (g3_8.trans (g2_8.trans (g1_8))))))
      rw [top, ← bot]
      exact g8_8
    · have top : res.seek_forwards = x9.seek_forwards :=
        g15_9.trans (g14_9.trans (g13_9.trans (g12_9.trans (g11_9.trans (g10_9)))))
      have bot : x8.seek_forwards = st.seek_forwards :=
        g8_9.trans (g7_9.trans (g6_9.trans (g5_9.trans (g4_9.trans (g3_9.trans (g2_9.trans (g1_9)))))))
      rw [top, ← bot]
      exact g9_9
    · have top : res.next_track = x10.next_track :=
        g15_10.trans (g14_10.trans (g13_10.trans (g12_10.trans (g11_10))))
      have bot : x9.next_track = st.next_track :=
        g9_10.trans (g8_10.trans (g7_10.trans (g6_10.trans (g5_10.trans (g4_10.trans (g3_10.trans (g2_10.trans (g1_10))))))))
      rw [top, ← bot]
      exact g10_10
    · have top : res.previous_track = x11.previous_track :=
        g15_11.trans (g14_11.trans (g13_11.trans (g12_11)))
      have bot : x10.previous_track = st.previous_track :=
        g10_11.trans (g9_11.trans (g8_11.trans (g7_11.trans (g6_11.trans (g5_11.trans (g4_11.trans (g3_11.trans (g2_11.trans (g1_11)))))))))
      rw [top, ← bot]
      exact g11_11
    · have top : res.help = x12.help :=
        g15_12.trans (g14_12.trans (g13_12))
      have bot : x11.help = st.help :=
        g11_12.trans (g10_12.trans (g9_12.trans (g8_12.trans (g7_12.trans (g6_12.trans (g5_12.trans (g4_12.trans (g3_12.trans (g2_12.trans (g1_12))))))))))
      rw [top, ← bot]
      exact g12_12
    · have top : res.shuffle = x13.shuffle :=
        g15_13.trans (g14_13)
      have bot : x12.shuffle = st.shuffle :=
        g12_13.trans (g11_13.trans (g10_13.trans (g9_13.trans (g8_13.trans (g7_13.trans (g6_13.trans (g5_13.trans (g4_13.trans (g3_13.trans (g2_13.trans (g1_13)))))))))))
      rw [top, ← bot]
      exact g13_13
    · have top : res.repeat_track = x14.repeat_track :=
        g15_14
      have bot : x13.repeat_track = st.repeat_track :=
        g13_14.trans (g12_14.trans (g11_14.trans (g10_14.trans (g9_14.trans (g8_14.trans (g7_14.trans (g6_14.trans (g5_14.trans (g4_14.trans (g3_14.trans (g2_14.trans (g1_14))))))))))))
      rw [top, ← bot]
      exact g14_14
    · have bot : x14.search_track = st.search_track :=
        g14_15.trans (g13_15.trans (g12_15.trans (g11_15.trans (g10_15.trans (g9_15.trans (g8_15.trans (g7_15.trans (g6_15.trans (g5_15.trans (g4_15.trans (g3_15.trans (g2_15.trans (g1_15)))))))))))))
      rw [← bot]
      exact g15_15

/-- Witness for C9: the general part instantiated at the help-only
override config. -/
theorem claim9_witness :
    load_config UserConfig.new { help := some "ctrl-h" } =
      ({ UserConfig.new with help := .Ctrl 'h' }, none) ∧
    fieldRel UserConfig.new.help (some "ctrl-h") (Key.Ctrl 'h') :=
  ⟨claim9_success_overrides.1,
   (claim9_success_overrides.2 UserConfig.new { help := some "ctrl-h" }
      { UserConfig.new with help := .Ctrl 'h' }
      rfl).2.2.2.2.2.2.2.2.2.2.2.1⟩

end Spotify
